import Mathlib

/-
  Verification development for the offender-bulletin crawling pipeline.

  The definitions below are a shallow embedding of the JavaScript/TypeScript
  sources: `src/services/processor.js` (normalizer and reconciler),
  `src/services/pdfParser.ts` (PDF record segmentation),
  `src/services/aiService.ts` (AI structuring adapter and its simulation mode),
  the table-crawler strategy, and the ROC-date conversion of the data-import
  tool.  JavaScript strings are Lean strings, JS `null`/absent values are
  `Option`, the ambient clock and `Math.random()` draws are explicit
  parameters, and the persisted store is an explicit list of records.  The
  clock is taken to run in UTC.
-/

namespace DD

/-- JS whitespace as matched by `\s` and `String.prototype.trim` on the inputs
    occurring in this repository (ASCII space, tab, line feed, carriage return). -/
def isJsSpace (c : Char) : Bool :=
  c == ' ' || c == '\t' || c == '\n' || c == '\r'

/-- Model of `String.prototype.trim`. -/
def jsTrim (s : String) : String :=
  ⟨((s.toList.dropWhile isJsSpace).reverse.dropWhile isJsSpace).reverse⟩

/-- Helper for `replace(/\s+/g, ' ')`: the boolean records whether the previous
    character was part of a whitespace run already replaced. -/
def collapseWsAux : List Char → Bool → List Char
  | [], _ => []
  | c :: rest, prevSpace =>
    if isJsSpace c then
      if prevSpace then collapseWsAux rest true
      else ' ' :: collapseWsAux rest true
    else c :: collapseWsAux rest false

/-- Model of `replace(/\s+/g, ' ')`: every whitespace run becomes one space. -/
def jsReplaceWsRuns (s : String) : String :=
  ⟨collapseWsAux s.toList false⟩

/-- ASCII upper-casing of one character; non-ASCII characters (including all
    CJK characters in this data) are fixed by `toUpperCase`. -/
def asciiUpperChar (c : Char) : Char :=
  if 97 ≤ c.toNat ∧ c.toNat ≤ 122 then Char.ofNat (c.toNat - 32) else c

/-- ASCII lower-casing of one character. -/
def asciiLowerChar (c : Char) : Char :=
  if 65 ≤ c.toNat ∧ c.toNat ≤ 90 then Char.ofNat (c.toNat + 32) else c

/-- Model of `String.prototype.toUpperCase` on this repository's data. -/
def jsToUpperCase (s : String) : String :=
  ⟨s.toList.map asciiUpperChar⟩

/-- Model of `String.prototype.toLowerCase` on this repository's data. -/
def jsToLowerCase (s : String) : String :=
  ⟨s.toList.map asciiLowerChar⟩

/-- Boolean prefix test on character lists. -/
def listPrefixCL : List Char → List Char → Bool
  | [], _ => true
  | _ :: _, [] => false
  | a :: as, b :: bs => a == b && listPrefixCL as bs

/-- Boolean substring test on character lists. -/
def containsSubCL (needle : List Char) : List Char → Bool
  | [] => needle.isEmpty
  | c :: rest => listPrefixCL needle (c :: rest) || containsSubCL needle rest

/-- Model of `String.prototype.includes`. -/
def strIncludes (hay needle : String) : Bool :=
  containsSubCL needle.toList hay.toList

/-- Numeric value of a list of decimal digit characters. -/
def digitsToNat (l : List Char) : Nat :=
  l.foldl (fun acc c => acc * 10 + (c.toNat - 48)) 0

/-- Model of `parseInt(s)` (radix 10): leading whitespace and an optional sign
    are skipped, the longest leading digit run is converted; `none` is NaN. -/
def parseIntJs (s : String) : Option Int :=
  let l := s.toList.dropWhile isJsSpace
  let signAndRest : Bool × List Char :=
    match l with
    | '-' :: rest => (true, rest)
    | '+' :: rest => (false, rest)
    | _ => (false, l)
  let ds := signAndRest.2.takeWhile Char.isDigit
  if ds.isEmpty then none
  else some (if signAndRest.1 then -(digitsToNat ds : Int) else (digitsToNat ds : Int))

/-- Model of ECMAScript ToNumber on the strings this code passes to the `Date`
    constructor: after trimming, the empty string is 0 and a signed decimal
    integer is its value; anything else (e.g. a string still holding a
    separator) is NaN, written `none`. -/
def toNumberJs (s : String) : Option Int :=
  let l := (jsTrim s).toList
  if l.isEmpty then some 0
  else
    let signAndRest : Bool × List Char :=
      match l with
      | '-' :: rest => (true, rest)
      | '+' :: rest => (false, rest)
      | _ => (false, l)
    if signAndRest.2.isEmpty then none
    else if signAndRest.2.all Char.isDigit then
      some (if signAndRest.1 then -(digitsToNat signAndRest.2 : Int) else (digitsToNat signAndRest.2 : Int))
    else none

/-- Splitting on a single separator character, keeping empty segments, as
    JS `split` does with a one-character separator string. -/
def splitOnCharCL (sep : Char) : List Char → List (List Char)
  | [] => [[]]
  | c :: rest =>
    let r := splitOnCharCL sep rest
    if c == sep then [] :: r
    else
      match r with
      | [] => [[c]]
      | h :: t => (c :: h) :: t

/-- Splitting on every character satisfying a predicate, keeping empty
    segments, as JS `split` does with a single-character-alternative regex. -/
def splitOnPredCL (p : Char → Bool) : List Char → List (List Char)
  | [] => [[]]
  | c :: rest =>
    let r := splitOnPredCL p rest
    if p c then [] :: r
    else
      match r with
      | [] => [[c]]
      | h :: t => (c :: h) :: t

/-- String wrapper for `splitOnCharCL`. -/
def jsSplitOnChar (s : String) (sep : Char) : List String :=
  (splitOnCharCL sep s.toList).map (fun l => (⟨l⟩ : String))

/-- Days since 1970-01-01 of the civil date `(y, m, d)` with `m` in 1..12 and
    `d` an arbitrary integer (day overflow extends linearly, exactly as the
    ECMAScript MakeDay arithmetic does).  Standard era-based calendar
    computation; all divisions operate on non-negative operands. -/
def daysFromCivil (y m d : Int) : Int :=
  let y2 : Int := y - (if m ≤ 2 then 1 else 0)
  let era : Int := (if 0 ≤ y2 then y2 else y2 - 399).ediv 400
  let yoe : Int := y2 - era * 400
  let mp : Int := (m + 9).emod 12
  let doy : Int := (153 * mp + 2).ediv 5 + d - 1
  let doe : Int := yoe * 365 + yoe.ediv 4 - yoe.ediv 100 + doy
  era * 146097 + doe - 719468

/-- Inverse of `daysFromCivil`: the civil date `(y, m, d)` of a day count. -/
def civilFromDays (z0 : Int) : Int × Int × Int :=
  let z := z0 + 719468
  let era : Int := (if 0 ≤ z then z else z - 146096).ediv 146097
  let doe := z - era * 146097
  let yoe := (doe - doe.ediv 1460 + doe.ediv 36524 - doe.ediv 146096).ediv 365
  let y := yoe + era * 400
  let doy := doe - (365 * yoe + yoe.ediv 4 - yoe.ediv 100)
  let mp := (5 * doy + 2).ediv 153
  let d := doy - (153 * mp + 2).ediv 5 + 1
  let m := mp + (if mp < 10 then 3 else -9)
  (y + (if m ≤ 2 then 1 else 0), m, d)

/-- A JS `Date` value at day granularity, with the clock in UTC: either the
    Invalid Date (its time value NaN) or a day count since the epoch. -/
inductive JsDate where
  | invalid : JsDate
  | valid : Int → JsDate
deriving DecidableEq, Repr

/-- Model of `new Date(year, monthIndex, day)`: ECMAScript MakeDay plus the
    constructor's two-digit-year adjustment, at day granularity in UTC.  A
    `none` argument stands for a NaN argument and yields the Invalid Date. -/
def jsNewDateYMD : Option Int → Option Int → Option Int → JsDate
  | some y, some m0, some d =>
    let yr := if 0 ≤ y ∧ y ≤ 99 then y + 1900 else y
    let ym := yr + m0.ediv 12
    let mn := m0.emod 12
    JsDate.valid (daysFromCivil ym (mn + 1) d)
  | _, _, _ => JsDate.invalid

/-- Left-pads a string with zeros to the given width. -/
def padLeftZeros (width : Nat) (s : String) : String :=
  if s.length < width then (⟨List.replicate (width - s.length) '0'⟩ : String) ++ s else s

/-- The date part of `Date.prototype.toISOString` for the proleptic years
    0..9999 produced in this development (zero-padded `YYYY-MM-DD`, UTC). -/
def toISODateString (days : Int) : String :=
  let c := civilFromDays days
  padLeftZeros 4 (toString c.1.toNat) ++ "-" ++
    padLeftZeros 2 (toString c.2.1.toNat) ++ "-" ++
    padLeftZeros 2 (toString c.2.2.toNat)

/-- The date part of `toISOString`; `none` models the TypeError thrown on an
    Invalid Date. -/
def jsDateIsoDate : JsDate → Option String
  | JsDate.invalid => none
  | JsDate.valid days => some (toISODateString days)

/-- Leap-year test of the Gregorian calendar. -/
def isLeapYear (y : Int) : Bool :=
  (y.emod 4 == 0 && y.emod 100 != 0) || y.emod 400 == 0

/-- Number of days of month `m` (1..12) in year `y`. -/
def daysInMonth (y : Int) (m : Nat) : Nat :=
  if m == 2 then (if isLeapYear y then 29 else 28)
  else if m == 4 || m == 6 || m == 9 || m == 11 then 30
  else 31

/-- Model of `new Date(string)` (the V8 legacy and ISO parsers) on the string
    shapes that reach it in this code after cleaning: the empty string is
    invalid; `a/b/c` with decimal components parses year-first when the leading
    component exceeds 31 and month-first otherwise, two-digit years mapping
    into 1950..2049; a strict `YYYY-MM-DD` form parses as an ISO date and is
    invalid when out of range; every other shape is invalid. -/
def jsDateOfString (s : String) : JsDate :=
  let fixYear : Nat → Int := fun n =>
    if n < 50 then (n : Int) + 2000 else if n < 100 then (n : Int) + 1900 else (n : Int)
  let slashParts := jsSplitOnChar s '/'
  let dashParts := jsSplitOnChar s '-'
  let allDigits : String → Bool := fun p => !p.isEmpty && p.toList.all Char.isDigit
  match slashParts with
  | [p1, p2, p3] =>
    if allDigits p1 && allDigits p2 && allDigits p3 then
      let n1 := digitsToNat p1.toList
      let n2 := digitsToNat p2.toList
      let n3 := digitsToNat p3.toList
      if n1 > 31 then
        if 1 ≤ n2 ∧ n2 ≤ 12 ∧ 1 ≤ n3 ∧ n3 ≤ 31 then
          JsDate.valid (daysFromCivil (fixYear n1) (n2 : Int) (n3 : Int))
        else JsDate.invalid
      else
        if 1 ≤ n1 ∧ n1 ≤ 12 ∧ 1 ≤ n2 ∧ n2 ≤ 31 then
          JsDate.valid (daysFromCivil (fixYear n3) (n1 : Int) (n2 : Int))
        else JsDate.invalid
    else JsDate.invalid
  | _ =>
    match dashParts with
    | [p1, p2, p3] =>
      if allDigits p1 && allDigits p2 && allDigits p3
          && p1.length == 4 && p2.length == 2 && p3.length == 2 then
        let y := (digitsToNat p1.toList : Int)
        let m := digitsToNat p2.toList
        let d := digitsToNat p3.toList
        if 1 ≤ m ∧ m ≤ 12 ∧ 1 ≤ d ∧ d ≤ daysInMonth y m then
          JsDate.valid (daysFromCivil y (m : Int) (d : Int))
        else JsDate.invalid
      else JsDate.invalid
    | _ => JsDate.invalid

/-! Embedding of `src/services/processor.js`. -/

/-- A JavaScript data object as the processor sees it: an ordered association
    of field names and values; a value `none` models the JS `null`. -/
abbrev JsObj := List (String × Option String)

/-- Field access on a JS object: `some v` when the key is present (with `v`
    the possibly-null value), `none` when the key is absent. -/
def objGet : JsObj → String → Option (Option String)
  | [], _ => none
  | (k, v) :: rest, key => if k == key then some v else objGet rest key

/-- Model of `getValueFromMultipleKeys` (processor.js lines 162-169): the first
    alias key that is present with a non-null value wins. -/
def getValueFromMultipleKeys (data : JsObj) : List String → Option String
  | [] => none
  | key :: rest =>
    match objGet data key with
    | some (some v) => some v
    | _ => getValueFromMultipleKeys data rest

/-- JS truthiness of a possibly-null string: `null` and the empty string are
    falsy. -/
def jsTruthy : Option String → Bool
  | none => false
  | some s => !s.isEmpty

/-- Reads field `k` of a JS object coerced through `|| null`: a missing, null
    or empty-string field becomes `none`. -/
def jsFieldOr (data : JsObj) (k : String) : Option String :=
  match objGet data k with
  | some (some v) => if v.isEmpty then none else some v
  | _ => none

/-- Model of `normalizeGender` (processor.js lines 216-228). -/
def normalizeGender (genderStr : Option String) : Option String :=
  match genderStr with
  | none => none
  | some g =>
    if g.isEmpty then none
    else
      let lowerGender := jsTrim (jsToLowerCase g)
      if ["male", "m", "男", "男性", "先生", "男子"].contains lowerGender then some "male"
      else if ["female", "f", "女", "女性", "小姐", "女士", "女子"].contains lowerGender then some "female"
      else none

/-- Characters kept by the cleaning step `replace(/[^0-9/\-\.年月日]/g, '')`. -/
def cleanDateKeep (c : Char) : Bool :=
  c.isDigit || c == '/' || c == '-' || c == '.' || c == '年' || c == '月' || c == '日'

/-- Model of `parseDate` (processor.js lines 176-209).  A CJK-formatted string
    goes through `new Date(year, month-1, day)`; anything else goes through the
    `new Date(string)` fallback; an invalid date yields `none` (the source
    returns null after the `isNaN` check, and the undefined-`date` TypeError of
    a short CJK split is caught by the surrounding `try`). -/
def parseDate (dateStr : Option String) : Option String :=
  match dateStr with
  | none => none
  | some s =>
    if s.isEmpty then none
    else
      let cleanDateStr : String := ⟨s.toList.filter cleanDateKeep⟩
      let hasCjk := strIncludes cleanDateStr "年" || strIncludes cleanDateStr "月" ||
        strIncludes cleanDateStr "日"
      let date : JsDate :=
        if hasCjk then
          let parts := ((splitOnPredCL
            (fun c => c == '年' || c == '月' || c == '日') cleanDateStr.toList).map
              (fun l => (⟨l⟩ : String))).filter (fun p => !p.isEmpty)
          match parts with
          | a :: b :: c :: _ =>
            jsNewDateYMD (toNumberJs a) ((parseIntJs b).map (fun x => x - 1)) (toNumberJs c)
          | _ => JsDate.invalid
        else jsDateOfString cleanDateStr
      match date with
      | JsDate.invalid => none
      | JsDate.valid days => some (toISODateString days)

/-- One entry of the `sources` array built by `validateAndNormalize`. -/
structure SourceInfo where
  name : String
  url : Option String
  imageUrl : Option String
  crawlTime : String
deriving DecidableEq, Repr

/-- The normalized record object built by `validateAndNormalize`. -/
structure NormalizedData where
  name : Option String
  idNumber : Option String
  licensePlate : Option String
  violationDate : Option String
  caseNumber : Option String
  gender : Option String
  sources : List SourceInfo
  rawData : String
deriving DecidableEq, Repr

/-- Stand-in for `JSON.stringify(data)`: a canonical rendering of the object.
    No claim inspects this string; it is carried opaquely into `rawData`. -/
def jsonStringify (data : JsObj) : String :=
  String.join (data.map (fun kv =>
    kv.1 ++ "=" ++ (match kv.2 with | none => "null" | some v => v) ++ ";"))

/-- Model of `validateAndNormalize` (processor.js lines 106-154).  `nowIso`
    stands for `new Date().toISOString()` used as the default crawl time. -/
def validateAndNormalize (data : JsObj) (sourceName : String) (nowIso : String) :
    Option NormalizedData :=
  let name := getValueFromMultipleKeys data ["name", "姓名", "fullName"]
  let idNumber := getValueFromMultipleKeys data ["idNumber", "身分證字號", "id", "ID"]
  let licensePlate := getValueFromMultipleKeys data
    ["licensePlate", "車牌號碼", "車號", "plateNumber", "vehicleNumber"]
  let violationDate := parseDate (getValueFromMultipleKeys data
    ["violationDate", "違規日期", "日期", "date"])
  let caseNumber := getValueFromMultipleKeys data ["caseNumber", "裁決字號", "案號", "caseId"]
  let gender := normalizeGender (getValueFromMultipleKeys data ["gender", "性別", "sex"])
  let src : SourceInfo :=
    { name := sourceName
      url := (jsFieldOr data "sourceUrl").orElse (fun _ => jsFieldOr data "url")
      imageUrl := jsFieldOr data "imageUrl"
      crawlTime := (jsFieldOr data "crawlTime").getD nowIso }
  if !(jsTruthy name) || (!(jsTruthy idNumber) && !(jsTruthy licensePlate)) then none
  else
    some
      { name := name.map (fun s => jsReplaceWsRuns (jsTrim s))
        idNumber := if jsTruthy idNumber then idNumber.map (fun s => jsToUpperCase (jsTrim s))
          else idNumber
        licensePlate := if jsTruthy licensePlate then
          licensePlate.map (fun s => jsToUpperCase (jsTrim s)) else licensePlate
        violationDate := violationDate
        caseNumber := caseNumber
        gender := gender
        sources := [src]
        rawData := jsonStringify data }

/-! Embedding of the reconciliation step of `processDmvData`
    (processor.js lines 38-61), under the MongoDB semantics of the
    `findOne` / `updateOne` / `save` calls it is written against. -/

/-- A stored offender document; `oid` is the Mongo `_id`. -/
structure StoredRecord where
  oid : Nat
  name : Option String
  idNumber : Option String
  licensePlate : Option String
  violationDate : Option String
  caseNumber : Option String
  gender : Option String
  sources : List SourceInfo
  rawData : String
deriving DecidableEq, Repr

/-- Equality of the three identifier fields used by the duplicate lookup. -/
def tripleMatches (r : StoredRecord) (v : NormalizedData) : Bool :=
  r.idNumber == v.idNumber && r.licensePlate == v.licensePlate && r.caseNumber == v.caseNumber

/-- Model of `OffenderRecord.findOne({idNumber, licensePlate, caseNumber})`
    (processor.js lines 40-44): the first stored document whose three
    identifier fields equal the incoming values, a null query value matching a
    null stored field.  The record's name takes no part in the query. -/
def findOneTriple (store : List StoredRecord) (v : NormalizedData) : Option StoredRecord :=
  store.find? (fun r => tripleMatches r v)

/-- Model of `new OffenderRecord(validatedData); save()` (processor.js lines
    57-59): append a fresh document with the incoming fields. -/
def insertRecord (store : List StoredRecord) (v : NormalizedData) : List StoredRecord :=
  store ++ [{ oid := store.length
              name := v.name
              idNumber := v.idNumber
              licensePlate := v.licensePlate
              violationDate := v.violationDate
              caseNumber := v.caseNumber
              gender := v.gender
              sources := v.sources
              rawData := v.rawData }]

/-- One iteration of the reconciliation loop of `processDmvData` on a record
    that passed validation (processor.js lines 38-61): look up by the
    identifier triple, then update the matched document or insert a new one.
    On a match, `updateOne` is invoked with `$set: { ...validatedData }` and
    `$addToSet: { sources: validatedData.sources[0] }` (lines 48-54); since
    the spread of `validatedData` itself contains the one-element `sources`
    array, both operators target the path `sources`, and MongoDB rejects such
    an update (ConflictingUpdateOperators).  The thrown error is swallowed by
    the per-item `catch` (lines 67-70, counting the record as failed), so the
    store is left unchanged: no stored field is ever filled or overwritten. -/
def reconcileOne (store : List StoredRecord) (v : NormalizedData) : List StoredRecord :=
  match findOneTriple store v with
  | some _ => store
  | none => insertRecord store v

/-- The match-key lookup exactly as claim C1 states it, modelled from the
    spec's wording for comparison with `findOneTriple`: if idNumber is present
    match on (name, idNumber); else if licensePlate is present match on
    (name, licensePlate); else match on (name, caseNumber). -/
def specMatchKeyLookup (store : List StoredRecord) (v : NormalizedData) : Option StoredRecord :=
  if jsTruthy v.idNumber then
    store.find? (fun r => r.name == v.name && r.idNumber == v.idNumber)
  else if jsTruthy v.licensePlate then
    store.find? (fun r => r.name == v.name && r.licensePlate == v.licensePlate)
  else
    store.find? (fun r => r.name == v.name && r.caseNumber == v.caseNumber)

/-- Model of `parseRocDate` (src/unnamed/part_006 lines 45-62): Republic-era
    `yyy/m/d` is converted by adding 1911 to the year.  `none` is the returned
    JS `null`; a returned `JsDate.invalid` models the Invalid Date object that
    the function returns when `parseInt` yields NaN. -/
def parseRocDate (dateStr : String) : Option JsDate :=
  if dateStr.isEmpty then none
  else
    match jsSplitOnChar dateStr '/' with
    | [p0, p1, p2] =>
      some (jsNewDateYMD ((parseIntJs p0).map (fun x => x + 1911))
        ((parseIntJs p1).map (fun x => x - 1)) (parseIntJs p2))
    | _ => none

/-! Embedding of `parseOffenderData` in `src/services/pdfParser.ts`. -/

/-- A raw record produced by the PDF text parser. -/
structure PdfOffender where
  id : Nat
  name : String
  violationDate : String
  violationArticle : String
  violationLocation : String
  violationDescription : String
  hasPhoto : Bool
deriving DecidableEq, Repr

/-- Model of `line.match(/^\s*(\d+)\s+/)`: on success, the captured digit
    group and the length of the whole (greedy) match. -/
def newRecordMatch (line : String) : Option (List Char × Nat) :=
  let l := line.toList
  let ws := l.takeWhile isJsSpace
  let rest := l.drop ws.length
  let ds := rest.takeWhile Char.isDigit
  if ds.isEmpty then none
  else
    let rest2 := rest.drop ds.length
    let ws2 := rest2.takeWhile isJsSpace
    if ws2.isEmpty then none
    else some (ds, ws.length + ds.length + ws2.length)

/-- Anchored match of `\d{2,3}\/\d{1,2}\/\d{1,2}` at the head of `l`, greedy
    with backtracking as in a JS regex engine: returns the matched characters. -/
def matchDatePatternAt (l : List Char) : Option (List Char) :=
  let tryFirst : Nat → Option (List Char) := fun k =>
    let ds := l.take k
    if ds.length == k && ds.all Char.isDigit then
      match l.drop k with
      | '/' :: rest1 =>
        let trySecond : Nat → Option (List Char) := fun j =>
          let ds2 := rest1.take j
          if ds2.length == j && ds2.all Char.isDigit then
            match rest1.drop j with
            | '/' :: rest2 =>
              let ds3 := (rest2.takeWhile Char.isDigit).take 2
              if ds3.isEmpty then none
              else some (ds ++ '/' :: ds2 ++ '/' :: ds3)
            | _ => none
          else none
        match trySecond 2 with
        | some r => some r
        | none => trySecond 1
      | _ => none
    else none
  match tryFirst 3 with
  | some r => some r
  | none => tryFirst 2

/-- Leftmost match of the date pattern anywhere in the character list,
    modelling `remainingText.match(/(\d{2,3}\/\d{1,2}\/\d{1,2})/)`. -/
def findDatePattern : List Char → Option (List Char)
  | [] => none
  | c :: rest =>
    match matchDatePatternAt (c :: rest) with
    | some m => some m
    | none => findDatePattern rest

/-- Helper for the lazy group of `/^([^\d]+?)\s*\d{2,3}\/\d{1,2}\/\d{1,2}/`:
    extends the captured non-digit prefix one character at a time and stops at
    the first point where, after skipping whitespace, the date pattern
    matches.  A digit ends the search, since the group cannot absorb it. -/
def nameMatchAux (taken : List Char) : List Char → Option (List Char)
  | [] => none
  | c :: rest =>
    if c.isDigit then none
    else
      let taken2 := taken ++ [c]
      if (matchDatePatternAt (rest.dropWhile isJsSpace)).isSome then some taken2
      else nameMatchAux taken2 rest

/-- The captured group of `remainingText.match(/^([^\d]+?)\s*\d{2,3}\/\d{1,2}\/\d{1,2}/)`. -/
def nameMatch (l : List Char) : Option (List Char) :=
  nameMatchAux [] l

/-- One step of the line loop of `parseOffenderData` (pdfParser.ts lines
    58-107): a sequence-number trigger flushes the in-progress record and
    seeds a new one from the trigger line (name and date only); any other line
    is classified into the statute, location or description field of the
    in-progress record. -/
def parsePdfStep (st : List PdfOffender × Option PdfOffender) (line : String) :
    List PdfOffender × Option PdfOffender :=
  match newRecordMatch line with
  | some dsLen =>
    let acc2 := match st.2 with
      | some c => st.1 ++ [c]
      | none => st.1
    let remainingText := jsTrim ⟨line.toList.drop dsLen.2⟩
    let nm := match nameMatch remainingText.toList with
      | some g => jsTrim ⟨g⟩
      | none => ""
    let vdate : String := match findDatePattern remainingText.toList with
      | some m => ⟨m⟩
      | none => ""
    let photo := strIncludes line "照片" || strIncludes line "相片"
    (acc2, some { id := digitsToNat dsLen.1, name := nm, violationDate := vdate,
                  violationArticle := "", violationLocation := "",
                  violationDescription := "", hasPhoto := photo })
  | none =>
    match st.2 with
    | some c =>
      if strIncludes line "第" && strIncludes line "條" then
        (st.1, some { c with violationArticle := jsTrim line })
      else if strIncludes line "區" || strIncludes line "路" || strIncludes line "街" ||
          strIncludes line "段" then
        (st.1, some { c with violationLocation := jsTrim line })
      else if strIncludes line "酒" || strIncludes line "酒精" || strIncludes line "駕駛" then
        (st.1, some { c with violationDescription := jsTrim line })
      else (st.1, some c)
    | none => (st.1, none)

/-- Model of `parseOffenderData` (pdfParser.ts lines 50-116). -/
def parseOffenderData (text : String) : List PdfOffender :=
  let lines := (jsSplitOnChar text '\n').filter (fun line => !(jsTrim line).isEmpty)
  let st := lines.foldl parsePdfStep ([], none)
  match st.2 with
  | some c => st.1 ++ [c]
  | none => st.1

/-! Embedding of `src/services/aiService.ts`. -/

/-- The `OffenderData` shape returned by the AI adapter. -/
structure OffenderData where
  name : Option String
  gender : Option String
  idNumber : Option String
  licensePlate : Option String
  violationDate : Option String
  caseNumber : Option String
  sourceUrl : Option String
  imageUrl : Option String
  crawlTime : Option String
deriving DecidableEq, Repr

/-- Model of `getMockOffenderData` (aiService.ts lines 400-412).  `rand` is
    the drawn value of `Math.floor(Math.random() * 10000)`; `todayIso` and
    `nowIso` are the date part and full value of `new Date().toISOString()`. -/
def getMockOffenderData (rand : Nat) (todayIso nowIso : String) : OffenderData :=
  { name := some "測試姓名"
    gender := some "male"
    idNumber := some "A123456789"
    licensePlate := some "測-1234"
    violationDate := some todayIso
    caseNumber := some ("TEST-" ++ toString rand)
    sourceUrl := some "https://example.com/test"
    imageUrl := some "https://example.com/test.jpg"
    crawlTime := some nowIso }

/-- A record is schema-valid when every expected offender field is non-null. -/
def schemaFieldsPresent (d : OffenderData) : Bool :=
  d.name.isSome && d.gender.isSome && d.idNumber.isSome && d.licensePlate.isSome &&
    d.violationDate.isSome && d.caseNumber.isSome

/-- Model of `extractTextFromImage` (aiService.ts lines 48-117).  When no
    OpenAI credential is configured the simulation branch (lines 50-53)
    returns the mock record list; the live branch (lines 55-116, the OpenAI
    call and its response parsing) is abstracted as `liveResult`. -/
def extractTextFromImage (isOpenAiAvailable : Bool) (rand : Nat) (todayIso nowIso : String)
    (liveResult : Except String (List OffenderData)) : Except String (List OffenderData) :=
  if !isOpenAiAvailable then Except.ok [getMockOffenderData rand todayIso nowIso]
  else liveResult

/-- Model of `extractStructuredData` (aiService.ts lines 165-222), whose TS
    return type is `OffenderData | OffenderData[]`.  The simulation branch
    (lines 167-170) returns the single mock record; the live branch is
    abstracted as `liveResult`. -/
def extractStructuredData (isOpenAiAvailable : Bool) (rand : Nat) (todayIso nowIso : String)
    (liveResult : Except String (OffenderData ⊕ List OffenderData)) :
    Except String (OffenderData ⊕ List OffenderData) :=
  if !isOpenAiAvailable then Except.ok (Sum.inl (getMockOffenderData rand todayIso nowIso))
  else liveResult

/-- The mock record as the JS object that `validateAndNormalize` receives,
    field order as in the object literal of `getMockOffenderData`. -/
def mockAsJsObj (rand : Nat) (todayIso nowIso : String) : JsObj :=
  [("name", some "測試姓名"),
   ("gender", some "male"),
   ("idNumber", some "A123456789"),
   ("licensePlate", some "測-1234"),
   ("violationDate", some todayIso),
   ("caseNumber", some ("TEST-" ++ toString rand)),
   ("sourceUrl", some "https://example.com/test"),
   ("imageUrl", some "https://example.com/test.jpg"),
   ("crawlTime", some nowIso)]

/-! Embedding of the table-crawler strategy (src/unnamed/part_009). -/

/-- An HTML table as the crawler sees it: the table's flattened text, the
    cells of its first row (the header row), and the cell texts of its
    remaining rows. -/
structure HtmlTable where
  text : String
  headers : List String
  rows : List (List String)
deriving Repr

/-- Model of `checkIfTargetTable` (part_009 lines 93-114): the table text must
    contain a domain keyword and the header row both a name-like and an
    identifier-like column. -/
def checkIfTargetTable (t : HtmlTable) : Bool :=
  let tableText := jsToLowerCase t.text
  let headers := t.headers.map (fun h => jsToLowerCase (jsTrim h))
  let keywordInTable := strIncludes tableText "酒駕" || strIncludes tableText "累犯" ||
    strIncludes tableText "駕駛人"
  let hasRequiredColumns := (headers.any (fun h => strIncludes h "姓名")) &&
    ((headers.any (fun h => strIncludes h "身分證")) || (headers.any (fun h => strIncludes h "車號")))
  keywordInTable && hasRequiredColumns

/-- Insert-or-overwrite of a field of a row object (JS property assignment). -/
def objSet (o : List (String × String)) (k v : String) : List (String × String) :=
  if o.any (fun kv => kv.1 == k) then o.map (fun kv => if kv.1 == k then (k, v) else kv)
  else o ++ [(k, v)]

/-- Builds `rowData` from a data row (part_009 lines 59-65): each cell is
    keyed by the header of its column; cells beyond the headers, or under an
    empty (falsy) header, are dropped. -/
def buildRowData (headers : List String) (cells : List String) : List (String × String) :=
  cells.enum.foldl (fun o ic =>
    match headers.get? ic.1 with
    | some h => if h.isEmpty then o else objSet o h ic.2
    | none => o) []

/-- Model of `isValidRecord` (part_009 lines 121-141). -/
def isValidRecord (record : List (String × String)) : Bool :=
  let fields := record.map (fun kv => jsToLowerCase kv.1)
  let hasName := fields.any (fun f =>
    strIncludes f "姓名" || strIncludes f "駕駛人" || strIncludes f "name")
  let hasIdentifier := fields.any (fun f =>
    strIncludes f "身分證" || strIncludes f "證號" || strIncludes f "車號" ||
      strIncludes f "車牌" || strIncludes f "id" || strIncludes f "license")
  hasName && hasIdentifier && record.any (fun kv => !kv.2.isEmpty)

/-- Model of the parsing phase of `tableCrawler` (part_009 lines 41-80): the
    row records accumulated over all target-scoring tables of the document.
    `url` and `nowIso` stand for the crawl URL and `new Date().toISOString()`
    stamped onto each valid row. -/
def tableCrawlerParse (tables : List HtmlTable) (url nowIso : String) :
    List (List (String × String)) :=
  tables.foldl (fun results t =>
    if checkIfTargetTable t then
      let headers := t.headers.map jsTrim
      t.rows.foldl (fun rs row =>
        let rowData := buildRowData headers (row.map jsTrim)
        if isValidRecord rowData then
          rs ++ [objSet (objSet rowData "sourceUrl" url) "crawlTime" nowIso]
        else rs) results
    else results) []

/-! Concrete fixtures used by the claim theorems. -/

/-- A provenance entry used in the reconciliation scenarios. -/
def srcTaichung : SourceInfo :=
  { name := "臺中市交通事件裁決處", url := some "https://example.gov/list",
    imageUrl := none, crawlTime := "2025-10-11T00:00:00.000Z" }

/-- A second, distinct provenance entry. -/
def srcTaipei : SourceInfo :=
  { name := "臺北區監理所", url := some "https://example.gov/taipei",
    imageUrl := none, crawlTime := "2025-10-12T00:00:00.000Z" }

/-- A stored record (name 王小明) with only the idNumber identifier. -/
def c1Stored : StoredRecord :=
  { oid := 0, name := some "王小明", idNumber := some "A123456789", licensePlate := none,
    violationDate := none, caseNumber := none, gender := none,
    sources := [srcTaichung], rawData := "r1" }

/-- An incoming record bearing a different name but the same identifiers. -/
def c1Incoming : NormalizedData :=
  { name := some "李大華", idNumber := some "A123456789", licensePlate := none,
    violationDate := none, caseNumber := none, gender := none,
    sources := [srcTaipei], rawData := "r2" }

/-- First observation of claim C2's scenario: idNumber null, plate ABC-1. -/
def c2First : NormalizedData :=
  { name := some "王小明", idNumber := none, licensePlate := some "ABC-1",
    violationDate := none, caseNumber := none, gender := none,
    sources := [srcTaichung], rawData := "first" }

/-- Second observation of claim C2's scenario: idNumber now A123, same plate. -/
def c2Second : NormalizedData :=
  { name := some "王小明", idNumber := some "A123", licensePlate := some "ABC-1",
    violationDate := none, caseNumber := none, gender := none,
    sources := [srcTaipei], rawData := "second" }

/-- The stored record that the second insertion of claim C2's scenario
    produces; its identifier triple equals that of `c2Second`. -/
def c2Stored : StoredRecord :=
  { oid := 1, name := some "王小明", idNumber := some "A123", licensePlate := some "ABC-1",
    violationDate := none, caseNumber := none, gender := none,
    sources := [srcTaipei], rawData := "second" }

/-- A fully populated normalized record for the idempotence scenario. -/
def c3Rec : NormalizedData :=
  { name := some "王小明", idNumber := some "A123456789", licensePlate := some "ABC-1234",
    violationDate := some "2022-07-11", caseNumber := some "中市裁字第35號",
    gender := some "male", sources := [srcTaichung], rawData := "raw" }

/-- A raw object whose only identifier field is a case number. -/
def c4Data : JsObj := [("name", some "王小明"), ("caseNumber", some "中市裁字第109號")]

/-- The rejection condition exactly as claim C4 states it (name empty, or none
    of idNumber / licensePlate / caseNumber present), modelled from the claim
    wording for comparison with the behaviour of `validateAndNormalize`. -/
def specRejectCondition (data : JsObj) : Bool :=
  !(jsTruthy (getValueFromMultipleKeys data ["name", "姓名", "fullName"])) ||
    (!(jsTruthy (getValueFromMultipleKeys data ["idNumber", "身分證字號", "id", "ID"])) &&
     !(jsTruthy (getValueFromMultipleKeys data
        ["licensePlate", "車牌號碼", "車號", "plateNumber", "vehicleNumber"])) &&
     !(jsTruthy (getValueFromMultipleKeys data ["caseNumber", "裁決字號", "案號", "caseId"])))

/-- First line of the PDF scenario of claim C6. -/
def pdfLine1 : String := "1 石玉山 111/7/11 第35條第3項 沙鹿區中清路六段489號"

/-- Second line of the PDF scenario of claim C6. -/
def pdfLine2 : String := "汽機車駕駛人駕駛汽機車，於十年內酒精濃度超過規定標準第2次(無照)"

/-- The two-line text block of claim C6. -/
def pdfScenario : String := pdfLine1 ++ "\n" ++ pdfLine2

/-- A table with no domain keyword and no identifier column. -/
def c9Table : HtmlTable := { text := "hello world", headers := ["名稱"], rows := [["x"]] }

/-! Claim theorems. -/

/-- Claim C1, as stated, is false: the reconciler's duplicate lookup is not
    the claimed ordered match key.  With one stored record (name 王小明,
    idNumber A123456789) and an incoming record carrying a different name but
    the same identifiers, the code's lookup matches while the claimed
    (name, idNumber) key does not. -/
theorem c1_match_key_cex :
    findOneTriple [c1Stored] c1Incoming ≠ specMatchKeyLookup [c1Stored] c1Incoming := by
  decide

/-- Claim C1 (amended): the reconciler looks up an existing stored record by
    simultaneous equality on the triple (idNumber, licensePlate, caseNumber)
    of the incoming record; the name is not part of the match key (changing it
    never changes the lookup result), and any record found agrees with the
    incoming record on all three identifier fields, absent (null) identifiers
    being used as null-equality conditions. -/
theorem c1_match_key (store : List StoredRecord) (v : NormalizedData) (n : Option String) :
    findOneTriple store { v with name := n } = findOneTriple store v ∧
      (∀ r, findOneTriple store v = some r → tripleMatches r v = true) := by
  refine ⟨rfl, ?_⟩
  intro r h
  have h2 : List.find? (fun x => tripleMatches x v) store = some r := h
  exact @List.find?_some _ (fun x => tripleMatches x v) r store h2

/-- Witness for `c1_match_key` at the concrete store and record of the
    counterexample scenario. -/
theorem c1_match_key_witness : tripleMatches c1Stored c1Incoming = true :=
  (c1_match_key [c1Stored] c1Incoming none).2 c1Stored (by decide)

/-- Claim C2, as stated, is false on its own scenario: after first storing
    (idNumber null, name 王小明, plate ABC-1), reconciling the later
    observation (idNumber A123, same name, same plate) does not fill in
    idNumber on the stored record — the triple lookup fails (null ≠ A123), a
    second record is inserted, and the original keeps idNumber null. -/
theorem c2_first_writer_cex :
    (reconcileOne (reconcileOne [] c2First) c2Second).length = 2 ∧
      (reconcileOne (reconcileOne [] c2First) c2Second).map (fun r => r.idNumber) =
        [none, some "A123"] := by
  decide

/-- Claim C2 (amended): in the claim's scenario the later observation with a
    newly present idNumber does not match the stored record, so a second
    record is inserted (both carrying plate ABC-1) and the original keeps
    idNumber null; and when an incoming record does match a stored one, no
    stored field changes at all — the matched `updateOne` names `sources`
    under both `$set` and `$addToSet`, MongoDB rejects it for the path
    conflict, and the swallowed error leaves the store unchanged, so the
    claimed null-filling update never happens on any path. -/
theorem c2_merge_semantics :
    ((reconcileOne (reconcileOne [] c2First) c2Second).map (fun r => r.idNumber) =
        [none, some "A123"] ∧
      (reconcileOne (reconcileOne [] c2First) c2Second).map (fun r => r.licensePlate) =
        [some "ABC-1", some "ABC-1"]) ∧
      (∀ (store : List StoredRecord) (v : NormalizedData),
        (findOneTriple store v).isSome = true → reconcileOne store v = store) := by
  refine ⟨⟨by decide, by decide⟩, ?_⟩
  intro store v h
  cases hf : findOneTriple store v with
  | none => rw [hf] at h; simp at h
  | some r => simp [reconcileOne, hf]

/-- Witness for `c2_merge_semantics` at the stored record produced by the
    scenario's second insertion, which the same observation then matches. -/
theorem c2_merge_semantics_witness : reconcileOne [c2Stored] c2Second = [c2Stored] :=
  c2_merge_semantics.2 [c2Stored] c2Second (by decide)

/-- Claim C3, as stated, is false: reconciling the same record together with
    the same provenance twice against an empty store does yield exactly one
    stored record, but it holds one provenance entry, not two — the matched
    update is rejected by MongoDB for its `$set`/`$addToSet` path conflict on
    `sources` and the error is swallowed, so nothing is appended. -/
theorem c3_idempotence_cex :
    (reconcileOne (reconcileOne [] c3Rec) c3Rec).length = 1 ∧
      (reconcileOne (reconcileOne [] c3Rec) c3Rec).map (fun r => r.sources.length) = [1] := by
  decide

/-- Claim C3 (amended): reconciling the same record with the same single
    provenance entry twice against an initially empty store yields exactly one
    stored record whose provenance list still holds exactly that one entry;
    the re-observation is not appended as a second provenance row. -/
theorem c3_idempotence (v : NormalizedData) (s : SourceInfo) (hs : v.sources = [s]) :
    (reconcileOne (reconcileOne [] v) v).length = 1 ∧
      (reconcileOne (reconcileOne [] v) v).map (fun r => r.sources) = [[s]] := by
  simp [reconcileOne, findOneTriple, insertRecord, tripleMatches, hs, List.find?]

/-- Witness for `c3_idempotence` at the concrete record of the scenario. -/
theorem c3_idempotence_witness :
    (reconcileOne (reconcileOne [] c3Rec) c3Rec).length = 1 ∧
      (reconcileOne (reconcileOne [] c3Rec) c3Rec).map (fun r => r.sources) =
        [[srcTaichung]] :=
  c3_idempotence c3Rec srcTaichung (by decide)

/-- Claim C4, as stated, is false: a raw record whose only identifier is a
    case number (name 王小明, caseNumber 中市裁字第109號) is rejected by
    `validateAndNormalize` even though the claimed condition (name empty or
    all three identifiers absent) does not hold for it. -/
theorem c4_reject_cex :
    ¬ (validateAndNormalize c4Data "臺中" "T" = none ↔ specRejectCondition c4Data = true) := by
  decide

/-- Claim C4 (amended): `validateAndNormalize` returns null exactly when the
    extracted name is absent or empty, or both the extracted idNumber and the
    extracted licensePlate are absent or empty; a case number does not count
    as an identifier at validation. -/
theorem c4_reject_iff (data : JsObj) (s now : String) :
    validateAndNormalize data s now = none ↔
      (jsTruthy (getValueFromMultipleKeys data ["name", "姓名", "fullName"]) = false ∨
        (jsTruthy (getValueFromMultipleKeys data ["idNumber", "身分證字號", "id", "ID"]) = false ∧
          jsTruthy (getValueFromMultipleKeys data
            ["licensePlate", "車牌號碼", "車號", "plateNumber", "vehicleNumber"]) = false)) := by
  cases hn : jsTruthy (getValueFromMultipleKeys data ["name", "姓名", "fullName"]) <;>
    cases hi : jsTruthy (getValueFromMultipleKeys data ["idNumber", "身分證字號", "id", "ID"]) <;>
      cases hp : jsTruthy (getValueFromMultipleKeys data
          ["licensePlate", "車牌號碼", "車號", "plateNumber", "vehicleNumber"]) <;>
        simp [validateAndNormalize, hn, hi, hp]

/-- Claim C5, as stated, is false of the normalizer: `parseDate` in
    processor.js has no Republic-calendar branch, so it does not convert
    111/7/11 to 2022-07-11 (it parses it through the JS Date fallback as the
    Gregorian year 111). -/
theorem c5_roc_date_cex : parseDate (some "111/7/11") ≠ some "2022-07-11" := by
  decide

/-- Claim C5 (amended): the import tool's `parseRocDate` converts 111/7/11 to
    the Gregorian date 2022-07-11 by adding 1911 to the year and returns null
    on the unparseable string "????" without throwing; the normalizer's own
    `parseDate` also returns null on "????", but parses 111/7/11 as the
    Gregorian date 0111-07-11 rather than applying the +1911 conversion. -/
theorem c5_roc_date :
    (parseRocDate "111/7/11").map jsDateIsoDate = some (some "2022-07-11") ∧
      parseRocDate "????" = none ∧
      parseDate (some "????") = none ∧
      parseDate (some "111/7/11") = some "0111-07-11" := by
  refine ⟨by decide, by decide, by decide, by decide⟩

/-- Claim C6, as stated, is false: on the two-line scenario block the single
    parsed record's statute field does not contain 第35條第3項 and its location
    field does not contain 沙鹿區中清路六段489號 — both sit on the trigger line,
    from which the parser only extracts the name and the date. -/
theorem c6_pdf_scenario_cex :
    (parseOffenderData pdfScenario).map (fun r =>
        (strIncludes r.violationArticle "第35條第3項",
          strIncludes r.violationLocation "沙鹿區中清路六段489號")) = [(false, false)] := by
  decide

/-- Claim C6 (amended): parsing the scenario block yields exactly one record
    with sequence number 1, name 石玉山, raw violation date 111/7/11, and a
    description containing 酒精濃度超過規定標準第2次, but with empty statute and
    location fields: the statute and address on the trigger line are dropped,
    since only non-trigger lines are classified into those fields. -/
theorem c6_pdf_scenario :
    parseOffenderData pdfScenario =
        [{ id := 1, name := "石玉山", violationDate := "111/7/11", violationArticle := "",
           violationLocation := "", violationDescription := pdfLine2, hasPhoto := false }] ∧
      (parseOffenderData pdfScenario).map (fun r =>
        strIncludes r.violationDescription "酒精濃度超過規定標準第2次") = [true] := by
  refine ⟨by decide, by decide⟩

/-- Claim C7: with no backend credential configured, the image-extraction and
    text-structuring operations return a successful, non-null, schema-valid
    mock record (list) — every expected offender field is present — and never
    reach a throwing path, whatever the live backend would have produced. -/
theorem c7_simulation_fallback (rand : Nat) (todayIso nowIso : String)
    (liveA : Except String (List OffenderData))
    (liveB : Except String (OffenderData ⊕ List OffenderData)) :
    extractTextFromImage false rand todayIso nowIso liveA =
        Except.ok [getMockOffenderData rand todayIso nowIso] ∧
      extractStructuredData false rand todayIso nowIso liveB =
        Except.ok (Sum.inl (getMockOffenderData rand todayIso nowIso)) ∧
      schemaFieldsPresent (getMockOffenderData rand todayIso nowIso) = true :=
  ⟨rfl, rfl, rfl⟩

/-- Claim C8, as stated, is false: the simulation-mode record is not
    deterministic — two calls drawing different `Math.random()` values (here 0
    and 1) at the same clock instant produce records differing in caseNumber. -/
theorem c8_determinism_cex :
    getMockOffenderData 0 "2025-10-11" "2025-10-11T00:00:00.000Z" ≠
      getMockOffenderData 1 "2025-10-11" "2025-10-11T00:00:00.000Z" := by
  decide

/-- Claim C8 (amended): two simulation-mode calls at the same clock instant
    agree on name, gender, idNumber, licensePlate, sourceUrl and imageUrl, but
    the caseNumber carries the random draw (TEST- followed by the value of
    `Math.floor(Math.random() * 10000)`), so the synthesized record is not
    deterministic in every field. -/
theorem c8_fixed_fields (r1 r2 : Nat) (t n : String) :
    (getMockOffenderData r1 t n).name = (getMockOffenderData r2 t n).name ∧
      (getMockOffenderData r1 t n).gender = (getMockOffenderData r2 t n).gender ∧
      (getMockOffenderData r1 t n).idNumber = (getMockOffenderData r2 t n).idNumber ∧
      (getMockOffenderData r1 t n).licensePlate = (getMockOffenderData r2 t n).licensePlate ∧
      (getMockOffenderData r1 t n).sourceUrl = (getMockOffenderData r2 t n).sourceUrl ∧
      (getMockOffenderData r1 t n).imageUrl = (getMockOffenderData r2 t n).imageUrl ∧
      (getMockOffenderData r1 t n).caseNumber = some ("TEST-" ++ toString r1) :=
  ⟨rfl, rfl, rfl, rfl, rfl, rfl, rfl⟩

/-- Claim C9: on a document none of whose tables scores as a target table, the
    HTML-table parser returns the empty record list (and, being a total
    function of the tables, reaches no throwing path). -/
theorem c9_no_target_tables (tables : List HtmlTable) (url nowIso : String)
    (h : ∀ t ∈ tables, checkIfTargetTable t = false) :
    tableCrawlerParse tables url nowIso = [] := by
  unfold tableCrawlerParse
  induction tables with
  | nil => rfl
  | cons t ts ih =>
    have ht : checkIfTargetTable t = false := h t (List.mem_cons_self t ts)
    have hts : ∀ x ∈ ts, checkIfTargetTable x = false :=
      fun x hx => h x (List.mem_cons_of_mem t hx)
    simpa [List.foldl_cons, ht] using ih hts

/-- Witness for `c9_no_target_tables` on a one-table document with no domain
    keyword and no identifier column. -/
theorem c9_no_target_tables_witness :
    tableCrawlerParse [c9Table] "https://example.com" "2025-10-11T00:00:00.000Z" = [] :=
  c9_no_target_tables [c9Table] "https://example.com" "2025-10-11T00:00:00.000Z" (by decide)

/-- Claim C10: the simulation-mode placeholder record carries non-empty name,
    idNumber and licensePlate fields, so `validateAndNormalize` accepts it for
    every random draw, clock value and source name — simulated records always
    reach the reconciler. -/
theorem c10_mock_passes_validation (rand : Nat) (todayIso nowIso sourceName vNow : String) :
    (validateAndNormalize (mockAsJsObj rand todayIso nowIso) sourceName vNow).isSome = true :=
  rfl

end DD
